import Mathlib

/-!
Verification development for the KeplerAI exoplanet classification backend
(`backend/app.py` and `backend/train_model.py`).

The inference pipeline (`ExoplanetPredictor` in `app.py`) and the training
pipeline (`ExoplanetClassifier` in `train_model.py`) are shallowly embedded
below.  Machine floats are modelled as exact rationals (`ℚ`); Python dicts of
features are modelled as association lists `List (String × ℚ)` (dict keys are
unique, and `List.lookup` returns the first binding); pandas tables are
modelled as lists of rows.  Third-party library operations that the source
calls (pandas `quantile`/`median`/`dropna`/`fillna`, sklearn's
`StandardScaler.transform` and `RandomForestClassifier.predict` /
`predict_proba`, numpy `argmax`) are modelled by their documented semantics.
-/

namespace KeplerAI

/-- A single-quote character, used to build error-message strings the way
`app.py` does with an f-string. -/
def squote : String := String.singleton (Char.ofNat 39)

/-- The fixed feature schema `ExoplanetClassifier.feature_columns` from
`train_model.py` (also the content of the persisted `feature_names.txt`
loaded by `app.py`): nine required feature names followed by three optional
ones. -/
def featureColumnsList : List String :=
  ["koi_period", "koi_duration", "koi_depth", "koi_prad", "koi_teq",
   "koi_insol", "koi_model_snr", "koi_steff", "koi_srad",
   "koi_impact", "koi_score", "koi_slogg"]

/-- The first nine feature names: required at inference time
(`app.py` raises when one is missing). -/
def requiredColsList : List String := featureColumnsList.take 9

/-- The three optional feature names, exactly the literal list
`['koi_impact', 'koi_score', 'koi_slogg']` tested by `app.py` line 88. -/
def optionalColsList : List String := ["koi_impact", "koi_score", "koi_slogg"]

/-- The class ordering of the persisted `LabelEncoder`: sklearn's
`LabelEncoder.fit` sorts the label strings, so `classes_` is the three raw
disposition labels in alphabetical order. -/
def persistedClasses : List String := ["CANDIDATE", "CONFIRMED", "FALSE POSITIVE"]

/-- Model of sklearn's fitted `StandardScaler`: a per-feature mean and scale. -/
structure Scaler where
  mean : List ℚ
  scale : List ℚ
deriving DecidableEq

/-- `StandardScaler.transform` on a single sample: per-feature
`(x - mean) / scale`. -/
def Scaler.transform (s : Scaler) (xs : List ℚ) : List ℚ :=
  (List.range xs.length).map fun i =>
    (xs.getD i 0 - s.mean.getD i 0) / s.scale.getD i 0

/-- Model of the fitted `RandomForestClassifier`: only its probability
output matters to the claims, so the classifier is an abstract function from
a scaled feature row to the per-class probability row returned by
`predict_proba` (aligned with the encoder's class ordering). -/
structure RFModel where
  proba : List ℚ → List ℚ

/-- Model of the fitted `LabelEncoder`: its persisted `classes_` list. -/
structure LabelEncoder where
  classes : List String
deriving DecidableEq

/-- The result dict returned by `ExoplanetPredictor.predict` in `app.py`
(lines 136-141).  The dict `confidence_scores` is an association list in
insertion order. -/
structure PredictionResult where
  prediction : String
  confidence_scores : List (String × ℚ)
  max_confidence : ℚ
  features_used : List String
deriving DecidableEq

/-- The `ExoplanetPredictor` object state from `app.py`: the four artifact
slots, each `none` until `load_model` fills it. -/
structure ExoplanetPredictor where
  model : Option RFModel
  scaler : Option Scaler
  label_encoder : Option LabelEncoder
  feature_columns : Option (List String)

/-- The artifact files on disk: `exoplanet_classifier.pkl`,
`feature_scaler.pkl`, `label_encoder.pkl`, `feature_names.txt`; `none`
models an absent file. -/
structure ArtifactFiles where
  modelFile : Option RFModel
  scalerFile : Option Scaler
  encoderFile : Option LabelEncoder
  featuresFile : Option (List String)

/-- `ExoplanetPredictor.load_model` (`app.py` lines 48-70): if all four
artifact files exist, load all four; otherwise load nothing (the predictor
keeps its initial all-`None` fields and is unready). -/
def load_model (files : ArtifactFiles) : ExoplanetPredictor :=
  if files.modelFile.isSome ∧ files.scalerFile.isSome ∧
      files.encoderFile.isSome ∧ files.featuresFile.isSome then
    ⟨files.modelFile, files.scalerFile, files.encoderFile, files.featuresFile⟩
  else
    ⟨none, none, none, none⟩

/-- The validate-and-complete loop of `ExoplanetPredictor.predict`
(`app.py` lines 84-94): walk the persisted feature columns in order; a
column present in the input keeps its value, an absent optional column
(member of `['koi_impact','koi_score','koi_slogg']`) is filled with the
default `0.0`, and an absent required column raises
`ValueError(f"Required feature '{col}' is missing")`.  Returns the selected
values in feature-column order (the `features_df[self.feature_columns]`
row). -/
def completeFeatures (cols : List String) (features : List (String × ℚ)) :
    Except String (List ℚ) :=
  match cols with
  | [] => .ok []
  | c :: rest =>
    match features.lookup c with
    | some v => (completeFeatures rest features).map (fun vs => v :: vs)
    | none =>
      if c ∈ optionalColsList then
        (completeFeatures rest features).map (fun vs => (0 : ℚ) :: vs)
      else
        .error ("Required feature " ++ squote ++ c ++ squote ++ " is missing")

/-- The merge loop of `ExoplanetPredictor.predict` (`app.py` lines 111-119):
fold over the `confidence_scores` items in order, summing the scores of
`CONFIRMED` and `CANDIDATE` into one accumulator and copying every other
class into the merged dict. -/
def mergeLoop (scores : List (String × ℚ)) : ℚ × List (String × ℚ) :=
  scores.foldl
    (fun acc p =>
      if p.1 = "CONFIRMED" ∨ p.1 = "CANDIDATE" then (acc.1 + p.2, acc.2)
      else (acc.1, acc.2 ++ [p]))
    (0, [])

/-- The body of `ExoplanetPredictor.predict` after the artifacts are in hand
(`app.py` lines 84-141): complete and order the features, scale them, get
the per-class probabilities, build the per-class confidence dict in
`classes_` order, merge `CONFIRMED`/`CANDIDATE`, and decide the verdict by
`confirmed_candidate_score > false_positive_score` ( ties go to
`FALSE POSITIVE`).  The intermediate `predicted_label` computed on line 104
of the source is dead: the returned verdict is `final_prediction`. -/
def predictWithArtifacts (m : RFModel) (sc : Scaler) (enc : LabelEncoder)
    (cols : List String) (features : List (String × ℚ)) :
    Except String PredictionResult :=
  match completeFeatures cols features with
  | .error e => .error e
  | .ok vals =>
    let scaled := sc.transform vals
    let probs := m.proba scaled
    let confidence_scores :=
      (List.range enc.classes.length).map fun i =>
        (enc.classes.getD i "", probs.getD i 0)
    let merged0 := mergeLoop confidence_scores
    let confirmed_candidate_score := merged0.1
    let merged := merged0.2 ++ [("CONFIRMED/CANDIDATE", confirmed_candidate_score)]
    let false_positive_score := (merged.lookup "FALSE POSITIVE").getD 0
    if confirmed_candidate_score > false_positive_score then
      .ok ⟨"CONFIRMED/CANDIDATE", merged, confirmed_candidate_score, cols⟩
    else
      .ok ⟨"FALSE POSITIVE", merged, false_positive_score, cols⟩

/-- `ExoplanetPredictor.predict` (`app.py` lines 72-145): fail with the
`Model not loaded` error when the model artifact is absent, otherwise run
the prediction body with the loaded artifacts (after a successful
`load_model` all four are present together; the defaults on the other three
slots are never reached in a reachable state). -/
def ExoplanetPredictor.predict (p : ExoplanetPredictor)
    (features : List (String × ℚ)) : Except String PredictionResult :=
  match p.model with
  | none => .error "Model not loaded. Please train the model first."
  | some m =>
    predictWithArtifacts m (p.scaler.getD ⟨[], []⟩)
      (p.label_encoder.getD ⟨[]⟩) (p.feature_columns.getD []) features

/-- A predictor in the Ready state, as produced by a successful
`load_model`. -/
def mkReady (m : RFModel) (sc : Scaler) (enc : LabelEncoder)
    (cols : List String) : ExoplanetPredictor :=
  ⟨some m, some sc, some enc, some cols⟩

/-- A classifier whose probability output is a fixed distribution,
regardless of the input row; used to quantify over the classifier's
probability output. -/
def constModel (ps : List ℚ) : RFModel := ⟨fun _ => ps⟩

/-- The identity scaler (mean 0, scale 1 on each of the 12 features). -/
def idScaler : Scaler := ⟨List.replicate 12 0, List.replicate 12 1⟩

/-- A concrete feature map supplying all 12 schema keys. -/
def fullInput : List (String × ℚ) :=
  [("koi_period", 10), ("koi_duration", 3), ("koi_depth", 100),
   ("koi_prad", 2), ("koi_teq", 500), ("koi_insol", 1),
   ("koi_model_snr", 20), ("koi_steff", 5700), ("koi_srad", 1),
   ("koi_impact", 1), ("koi_score", 1), ("koi_slogg", 4)]

/-- Every feature column is either optional or one of the nine required
names. -/
lemma featureCol_opt_or_req :
    ∀ c ∈ featureColumnsList, c ∈ optionalColsList ∨ c ∈ requiredColsList := by
  decide

/-- No required feature name is in the optional list. -/
lemma req_not_opt : ∀ c ∈ requiredColsList, c ∉ optionalColsList := by
  decide

/-- The completion loop succeeds as soon as every column it walks is either
optional or present in the input map. -/
lemma completeFeatures_isOk (cols : List String)
    (features : List (String × ℚ))
    (h : ∀ c ∈ cols, c ∈ optionalColsList ∨ (features.lookup c).isSome) :
    ∃ vs, completeFeatures cols features = .ok vs := by
  induction cols with
  | nil => exact ⟨[], rfl⟩
  | cons c rest ih =>
    obtain ⟨vs, hvs⟩ := ih fun g hg => h g (List.mem_cons_of_mem _ hg)
    rcases hl : features.lookup c with _ | v
    · rcases h c (List.mem_cons_self _ _) with hopt | hsome
      · exact ⟨0 :: vs, by simp [completeFeatures, hl, hopt, hvs, Except.map]⟩
      · rw [hl] at hsome; exact absurd hsome (by simp)
    · exact ⟨v :: vs, by simp [completeFeatures, hl, hvs, Except.map]⟩

/-- When `f` is the only non-optional column that the input map lacks, the
completion loop fails with exactly the `Required feature ... is missing`
message built around `f`. -/
lemma completeFeatures_error_of_missing (cols : List String)
    (features : List (String × ℚ)) (f : String)
    (hmem : f ∈ cols) (hnone : features.lookup f = none)
    (hnotopt : f ∉ optionalColsList)
    (hothers : ∀ g ∈ cols, g ≠ f →
      g ∈ optionalColsList ∨ (features.lookup g).isSome) :
    completeFeatures cols features =
      .error ("Required feature " ++ squote ++ f ++ squote ++ " is missing") := by
  induction cols with
  | nil => exact absurd hmem (List.not_mem_nil f)
  | cons c rest ih =>
    by_cases hcf : c = f
    · subst hcf
      simp [completeFeatures, hnone, hnotopt]
    · have hfrest : f ∈ rest := by
        rcases List.mem_cons.mp hmem with h | h
        · exact absurd h.symm hcf
        · exact h
      have hrest := ih hfrest
        (fun g hg hgf => hothers g (List.mem_cons_of_mem _ hg) hgf)
      rcases hl : features.lookup c with _ | v
      · rcases hothers c (List.mem_cons_self _ _) hcf with hopt | hsome
        · simp [completeFeatures, hl, hopt, hrest, Except.map]
        · rw [hl] at hsome; exact absurd hsome (by simp)
      · simp [completeFeatures, hl, hrest, Except.map]

/-- The completion loop looks at the input map only through lookups of the
columns it walks: two maps related column-by-column (equal lookup, or an
optional column absent in one and bound to `0.0` in the other) complete to
the same result. -/
lemma completeFeatures_congr (cols : List String)
    (f1 f2 : List (String × ℚ))
    (h : ∀ c ∈ cols, f1.lookup c = f2.lookup c ∨
      (c ∈ optionalColsList ∧ f1.lookup c = none ∧ f2.lookup c = some 0)) :
    completeFeatures cols f1 = completeFeatures cols f2 := by
  induction cols with
  | nil => rfl
  | cons c rest ih =>
    have ihr := ih fun g hg => h g (List.mem_cons_of_mem _ hg)
    rcases h c (List.mem_cons_self _ _) with heq | ⟨hopt, h1, h2⟩
    · rcases hl : f1.lookup c with _ | v <;>
        rw [hl] at heq <;>
        simp [completeFeatures, hl, ← heq, ihr]
    · simp [completeFeatures, h1, h2, hopt, ihr]

/-- Claim C1: for every classifier probability distribution `[p1, p2, p3]`
over the persisted classes `[CANDIDATE, CONFIRMED, FALSE POSITIVE]`, a
successful `predict` returns the verdict `CONFIRMED/CANDIDATE` exactly when
`p1 + p2 > p3` (sum of CANDIDATE and CONFIRMED strictly above
FALSE POSITIVE), returns `FALSE POSITIVE` on exact equality, and reports as
`max_confidence` the merged score of the winning side. -/
theorem C1_merge_and_decide (p1 p2 p3 : ℚ) (sc : Scaler)
    (features : List (String × ℚ)) (vals : List ℚ)
    (hc : completeFeatures featureColumnsList features = .ok vals) :
    ∃ r : PredictionResult,
      (mkReady (constModel [p1, p2, p3]) sc ⟨persistedClasses⟩
          featureColumnsList).predict features = .ok r ∧
      (r.prediction = "CONFIRMED/CANDIDATE" ↔ p1 + p2 > p3) ∧
      (p1 + p2 = p3 → r.prediction = "FALSE POSITIVE") ∧
      r.max_confidence = (if p1 + p2 > p3 then p1 + p2 else p3) := by
  simp only [ExoplanetPredictor.predict, mkReady, predictWithArtifacts, hc,
    constModel, persistedClasses, mergeLoop, Option.getD_some]
  norm_num [List.range_succ, List.lookup]
  by_cases hgt : p3 < p1 + p2
  · exact ⟨⟨"CONFIRMED/CANDIDATE",
      [("FALSE POSITIVE", p3), ("CONFIRMED/CANDIDATE", p1 + p2)],
      p1 + p2, featureColumnsList⟩,
      by simp [hgt], by simp [hgt],
      fun he => absurd hgt (by rw [he]; exact lt_irrefl p3),
      by simp [hgt]⟩
  · exact ⟨⟨"FALSE POSITIVE",
      [("FALSE POSITIVE", p3), ("CONFIRMED/CANDIDATE", p1 + p2)],
      p3, featureColumnsList⟩,
      by simp [hgt], by simp [hgt], fun _ => rfl, by simp [hgt]⟩

/-- Witness for C1 at the concrete distribution `[1/8, 1/4, 5/8]` and the
concrete full input. -/
theorem C1_merge_and_decide_witness :
    ∃ r : PredictionResult,
      (mkReady (constModel [1/8, 1/4, 5/8]) idScaler ⟨persistedClasses⟩
          featureColumnsList).predict fullInput = .ok r ∧
      (r.prediction = "CONFIRMED/CANDIDATE" ↔ (1/8 : ℚ) + 1/4 > 5/8) ∧
      ((1/8 : ℚ) + 1/4 = 5/8 → r.prediction = "FALSE POSITIVE") ∧
      r.max_confidence = (if (1/8 : ℚ) + 1/4 > 5/8 then 1/8 + 1/4 else (5/8 : ℚ)) :=
  C1_merge_and_decide (1/8) (1/4) (5/8) idScaler fullInput
    [10, 3, 100, 2, 500, 1, 20, 5700, 1, 1, 1, 4] (by rfl)

/-- Claim C2: with all nine required features present and a classifier whose
three per-class probabilities sum to 1, `predict` on a Ready predictor
succeeds and returns a confidence mapping with exactly the two keys
`FALSE POSITIVE` and `CONFIRMED/CANDIDATE` whose values sum to 1 (hence to
1.0 within `1e-6`). -/
theorem C2_two_keys_sum_one (m : RFModel) (sc : Scaler)
    (features : List (String × ℚ))
    (hreq : ∀ c ∈ requiredColsList, (features.lookup c).isSome)
    (hm : ∀ xs : List ℚ, ∃ q1 q2 q3 : ℚ,
      m.proba xs = [q1, q2, q3] ∧ q1 + q2 + q3 = 1) :
    ∃ r : PredictionResult,
      (mkReady m sc ⟨persistedClasses⟩ featureColumnsList).predict features
        = .ok r ∧
      r.confidence_scores.map Prod.fst
        = ["FALSE POSITIVE", "CONFIRMED/CANDIDATE"] ∧
      (r.confidence_scores.map Prod.snd).sum = 1 ∧
      |(r.confidence_scores.map Prod.snd).sum - 1| ≤ 1 / 1000000 := by
  obtain ⟨vals, hvals⟩ := completeFeatures_isOk featureColumnsList features
    (fun c hc => (featureCol_opt_or_req c hc).imp id (fun hr => hreq c hr))
  obtain ⟨q1, q2, q3, hq, hsum⟩ := hm (sc.transform vals)
  simp only [ExoplanetPredictor.predict, mkReady, predictWithArtifacts, hvals,
    persistedClasses, mergeLoop, Option.getD_some, hq]
  norm_num [List.range_succ, List.lookup]
  by_cases hgt : q3 < q1 + q2
  · refine ⟨⟨"CONFIRMED/CANDIDATE",
      [("FALSE POSITIVE", q3), ("CONFIRMED/CANDIDATE", q1 + q2)],
      q1 + q2, featureColumnsList⟩, by simp [hgt], by simp, ?_, ?_⟩
    · simp; linarith
    · have hs : q3 + (q1 + q2) - 1 = 0 := by linarith
      simp [hs]
  · refine ⟨⟨"FALSE POSITIVE",
      [("FALSE POSITIVE", q3), ("CONFIRMED/CANDIDATE", q1 + q2)],
      q3, featureColumnsList⟩, by simp [hgt], by simp, ?_, ?_⟩
    · simp; linarith
    · have hs : q3 + (q1 + q2) - 1 = 0 := by linarith
      simp [hs]

/-- Witness for C2 at the concrete full input and the distribution
`[1/2, 1/4, 1/4]`. -/
theorem C2_two_keys_sum_one_witness :
    ∃ r : PredictionResult,
      (mkReady (constModel [1/2, 1/4, 1/4]) idScaler ⟨persistedClasses⟩
          featureColumnsList).predict fullInput = .ok r ∧
      r.confidence_scores.map Prod.fst
        = ["FALSE POSITIVE", "CONFIRMED/CANDIDATE"] ∧
      (r.confidence_scores.map Prod.snd).sum = 1 ∧
      |(r.confidence_scores.map Prod.snd).sum - 1| ≤ 1 / 1000000 :=
  C2_two_keys_sum_one (constModel [1/2, 1/4, 1/4]) idScaler fullInput
    (by decide) (fun _ => ⟨1/2, 1/4, 1/4, rfl, by norm_num⟩)

/-- Claim C3: for each required feature `f`, calling `predict` on a Ready
predictor with an input lacking `f` (all other required features present)
fails with a `ValueError` whose message names `f`. -/
theorem C3_missing_required_names_feature (m : RFModel) (sc : Scaler)
    (f : String) (features : List (String × ℚ))
    (hf : f ∈ requiredColsList)
    (hnone : features.lookup f = none)
    (hothers : ∀ g ∈ requiredColsList, g ≠ f → (features.lookup g).isSome) :
    ∃ msg : String,
      (mkReady m sc ⟨persistedClasses⟩ featureColumnsList).predict features
        = .error msg ∧
      ∃ pre post, msg = pre ++ f ++ post := by
  have herr := completeFeatures_error_of_missing featureColumnsList features f
    (List.take_subset 9 featureColumnsList hf) hnone (req_not_opt f hf)
    (fun g hg hgf =>
      (featureCol_opt_or_req g hg).imp id (fun hr => hothers g hr hgf))
  refine ⟨"Required feature " ++ squote ++ f ++ squote ++ " is missing",
    ?_, "Required feature " ++ squote, squote ++ " is missing", ?_⟩
  · simp [ExoplanetPredictor.predict, mkReady, predictWithArtifacts, herr]
  · simp [String.append_assoc]

/-- Witness for C3: omitting `koi_period` (all other required features
present) produces an error naming `koi_period`. -/
theorem C3_missing_required_witness :
    ∃ msg : String,
      (mkReady (constModel [1/2, 1/4, 1/4]) idScaler ⟨persistedClasses⟩
          featureColumnsList).predict (fullInput.drop 1) = .error msg ∧
      ∃ pre post, msg = pre ++ "koi_period" ++ post :=
  C3_missing_required_names_feature (constModel [1/2, 1/4, 1/4]) idScaler
    "koi_period" (fullInput.drop 1) (by decide) (by decide) (by decide)

/-- Claim C7: two `predict` calls on the same Ready predictor whose inputs
agree on every schema key except an optional one — absent in the first call,
explicitly `0.0` in the second — return identical results. -/
theorem C7_optional_default_equals_explicit_zero (m : RFModel) (sc : Scaler)
    (enc : LabelEncoder) (o : String) (f1 f2 : List (String × ℚ))
    (ho : o ∈ optionalColsList)
    (hagree : ∀ c ∈ featureColumnsList, c ≠ o → f1.lookup c = f2.lookup c)
    (h1 : f1.lookup o = none) (h2 : f2.lookup o = some 0) :
    (mkReady m sc enc featureColumnsList).predict f1 =
      (mkReady m sc enc featureColumnsList).predict f2 := by
  have hcc := completeFeatures_congr featureColumnsList f1 f2 (fun c hc => by
    by_cases hco : c = o
    · subst hco; exact Or.inr ⟨ho, h1, h2⟩
    · exact Or.inl (hagree c hc hco))
  simp only [ExoplanetPredictor.predict, mkReady, predictWithArtifacts, hcc,
    Option.getD_some]

/-- Witness for C7: omitting `koi_slogg` versus supplying `koi_slogg = 0`
on the concrete input. -/
theorem C7_optional_default_witness :
    (mkReady (constModel [1/2, 1/4, 1/4]) idScaler ⟨persistedClasses⟩
        featureColumnsList).predict (fullInput.take 11) =
      (mkReady (constModel [1/2, 1/4, 1/4]) idScaler ⟨persistedClasses⟩
          featureColumnsList).predict
        (fullInput.take 11 ++ [("koi_slogg", 0)]) :=
  C7_optional_default_equals_explicit_zero (constModel [1/2, 1/4, 1/4])
    idScaler ⟨persistedClasses⟩ "koi_slogg" (fullInput.take 11)
    (fullInput.take 11 ++ [("koi_slogg", 0)])
    (by decide) (by decide) (by decide) (by decide)

/-- Claim C8: when any of the four persisted artifacts is absent,
`load_model` loads nothing (the predictor stays in the all-`None` unready
state) and every subsequent `predict` call fails with the
`Model not loaded` error. -/
theorem C8_unready_on_missing_artifact (files : ArtifactFiles)
    (h : files.modelFile = none ∨ files.scalerFile = none ∨
      files.encoderFile = none ∨ files.featuresFile = none) :
    load_model files = ⟨none, none, none, none⟩ ∧
    ∀ features, (load_model files).predict features =
      .error "Model not loaded. Please train the model first." := by
  have hcond : ¬(files.modelFile.isSome ∧ files.scalerFile.isSome ∧
      files.encoderFile.isSome ∧ files.featuresFile.isSome) := by
    rcases h with h | h | h | h <;> simp [h]
  have hload : load_model files = ⟨none, none, none, none⟩ := by
    simp [load_model, hcond]
  exact ⟨hload, fun features => by
    rw [hload]; simp [ExoplanetPredictor.predict]⟩

/-- Witness for C8 with all four artifact files absent. -/
theorem C8_unready_witness :
    load_model ⟨none, none, none, none⟩
      = (⟨none, none, none, none⟩ : ExoplanetPredictor) ∧
    (load_model ⟨none, none, none, none⟩).predict fullInput =
      .error "Model not loaded. Please train the model first." :=
  ⟨(C8_unready_on_missing_artifact ⟨none, none, none, none⟩ (Or.inl rfl)).1,
   (C8_unready_on_missing_artifact ⟨none, none, none, none⟩ (Or.inl rfl)).2
      fullInput⟩

/-- Claim C9: two inputs to `predict` on the same Ready predictor that agree
on every key of the 12-name schema (and may differ arbitrarily on keys
outside it) produce identical results. -/
theorem C9_unknown_keys_ignored (m : RFModel) (sc : Scaler)
    (enc : LabelEncoder) (f1 f2 : List (String × ℚ))
    (hagree : ∀ c ∈ featureColumnsList, f1.lookup c = f2.lookup c) :
    (mkReady m sc enc featureColumnsList).predict f1 =
      (mkReady m sc enc featureColumnsList).predict f2 := by
  have hcc := completeFeatures_congr featureColumnsList f1 f2
    (fun c hc => Or.inl (hagree c hc))
  simp only [ExoplanetPredictor.predict, mkReady, predictWithArtifacts, hcc,
    Option.getD_some]

/-- Witness for C9: prepending a key outside the schema does not change the
result. -/
theorem C9_unknown_keys_witness :
    (mkReady (constModel [1/2, 1/4, 1/4]) idScaler ⟨persistedClasses⟩
        featureColumnsList).predict (("not_a_koi_field", 42) :: fullInput) =
      (mkReady (constModel [1/2, 1/4, 1/4]) idScaler ⟨persistedClasses⟩
          featureColumnsList).predict fullInput :=
  C9_unknown_keys_ignored (constModel [1/2, 1/4, 1/4]) idScaler
    ⟨persistedClasses⟩ (("not_a_koi_field", 42) :: fullInput) fullInput
    (by decide)

/-! ## Training pipeline: `ExoplanetClassifier` (`train_model.py`) -/

/-- Model of `pandas.Series.quantile(q)` with the default linear
interpolation: on the sorted values, the quantile sits at position
`q * (n - 1)` and is linearly interpolated between the two neighbouring
order statistics (0 for an empty series, a case no claim touches). -/
def quantileQ (xs : List ℚ) (q : ℚ) : ℚ :=
  let s := xs.insertionSort (· ≤ ·)
  let n := s.length
  if n = 0 then 0
  else
    let h : ℚ := q * ((n : ℚ) - 1)
    let i : Nat := (Int.floor h).toNat
    let lo := s.getD i 0
    let hi := s.getD (min (i + 1) (n - 1)) 0
    lo + (h - (i : ℚ)) * (hi - lo)

/-- The values of column `c` of a numeric table (`df[col]`). -/
def colValues (c : Nat) (df : List (List ℚ)) : List ℚ :=
  df.map (fun r => r.getD c 0)

/-- The outlier-removal loop of
`ExoplanetClassifier.load_and_preprocess_data` (`train_model.py` lines
75-82): for each feature column in schema order, compute `Q1`, `Q3` and
`IQR = Q3 - Q1` on the current table and keep only the rows whose value in
that column lies in `[Q1 - 1.5*IQR, Q3 + 1.5*IQR]`, reassigning `df` before
the next column (columns are identified by their index in the schema; after
the column narrowing on line 57 every schema column is present, so the
`if col in df.columns` guard is always true). -/
def removeOutliers (cols : List Nat) (df : List (List ℚ)) : List (List ℚ) :=
  cols.foldl
    (fun df col =>
      let Q1 := quantileQ (colValues col df) (1/4)
      let Q3 := quantileQ (colValues col df) (3/4)
      let IQR := Q3 - Q1
      let lower_bound := Q1 - 3/2 * IQR
      let upper_bound := Q3 + 3/2 * IQR
      df.filter (fun r => lower_bound ≤ r.getD col 0 ∧ r.getD col 0 ≤ upper_bound))
    df

/-- The column indices of the 12-feature schema. -/
def allColIdx : List Nat := List.range 12

/-- Outlier removal as the spec words it, for comparison with
`removeOutliers`: process the columns one at a time in the fixed order, and
for each column compute the quartiles over only the rows that survived all
prior columns, dropping rows outside `[Q1 - 1.5*IQR, Q3 + 1.5*IQR]` before
the next column is processed. -/
def specSequentialOutlierRemoval : List Nat → List (List ℚ) → List (List ℚ)
  | [], df => df
  | col :: rest, df =>
    let Q1 := quantileQ (colValues col df) (1/4)
    let Q3 := quantileQ (colValues col df) (3/4)
    let IQR := Q3 - Q1
    specSequentialOutlierRemoval rest
      (df.filter (fun r =>
        Q1 - 3/2 * IQR ≤ r.getD col 0 ∧ r.getD col 0 ≤ Q3 + 3/2 * IQR))

/-- Claim C4: the code's outlier removal is exactly the sequential
per-column filter described by the spec — each column's quartiles are
computed over the rows surviving all prior columns' filters, and the rows
outside that column's IQR fence are dropped before the next column. -/
theorem C4_sequential_outlier_removal (cols : List Nat)
    (df : List (List ℚ)) :
    removeOutliers cols df = specSequentialOutlierRemoval cols df := by
  induction cols generalizing df with
  | nil => rfl
  | cons c cs ih =>
    simp only [removeOutliers, List.foldl_cons, specSequentialOutlierRemoval]
    exact ih _

/-- A single-column table on which outlier removal is not idempotent: the
first pass has `Q1 = 0`, `Q3 = 3/2`, so its fence `[-9/4, 15/4]` drops only
the row `[4]`; on the survivors the quartiles collapse to `Q1 = Q3 = 0` and
the second pass also drops `[3]`. -/
def tableCE : List (List ℚ) := [[0], [0], [0], [0], [0], [3], [4]]

unseal Rat.mul Rat.inv Rat.add Rat.sub in
/-- Counterexample to Claim C6 as stated: re-running the outlier-removal
pass on its own output removes an additional row on `tableCE`, so the
output of a pass is not a fixed point of the pass. -/
theorem C6_not_idempotent_counterexample :
    removeOutliers allColIdx tableCE = [[0], [0], [0], [0], [0], [3]] ∧
    removeOutliers allColIdx (removeOutliers allColIdx tableCE)
      = [[0], [0], [0], [0], [0]] ∧
    removeOutliers allColIdx (removeOutliers allColIdx tableCE)
      ≠ removeOutliers allColIdx tableCE := by
  decide

/-- Claim C6 amended: an outlier-removal pass is not idempotent — on its own
output it may remove further rows, because the quartiles are recomputed on
the shrunken table — but it is monotone non-increasing: the output of any
pass is a sublist of its input, so a repeated pass never adds or reorders
rows. -/
theorem C6_amended_pass_is_sublist (cols : List Nat) (df : List (List ℚ)) :
    (removeOutliers cols df).Sublist df := by
  induction cols generalizing df with
  | nil => exact List.Sublist.refl df
  | cons c cs ih =>
    simp only [removeOutliers, List.foldl_cons]
    exact (ih _).trans (List.filter_sublist df)

/-! ## Missing-value handling (`train_model.py` lines 59-71) -/

/-- A raw table cell is either a number or missing (NaN). -/
abbrev RawTable := List (List (Option ℚ))

/-- `df.dropna(subset=required_cols)` with the required columns being the
first nine schema columns: keep only rows with a value in every one of
columns `0..8`. -/
def dropnaRequired (df : RawTable) : RawTable :=
  df.filter (fun r => (List.range 9).all (fun c => (r.getD c none).isSome))

/-- The non-missing values of column `c` (pandas aggregations such as
`median` skip NaN). -/
def colNonNull (c : Nat) (df : RawTable) : List ℚ :=
  df.filterMap (fun r => r.getD c none)

/-- `df[col].median()`: the 0.5 quantile (linear interpolation) of the
column's non-missing values. -/
def medianCol (c : Nat) (df : RawTable) : ℚ :=
  quantileQ (colNonNull c df) (1/2)

/-- `df[col] = df[col].fillna(v)`: replace every missing cell of column `c`
by `v`, leaving all other cells untouched. -/
def fillnaCol (c : Nat) (v : ℚ) (df : RawTable) : RawTable :=
  df.map (fun r => if (r.getD c none).isSome then r else r.set c (some v))

/-- The indices of the three optional columns in the 12-column schema. -/
def optionalIdxList : List Nat := [9, 10, 11]

/-- The missing-value block of
`ExoplanetClassifier.load_and_preprocess_data` (`train_model.py` lines
59-71): drop every row with a missing value in a required column, then for
each optional column in turn fill its missing values with that column's
median over the current table. -/
def handle_missing_values (df : RawTable) : RawTable :=
  let df1 := dropnaRequired df
  optionalIdxList.foldl (fun acc c => fillnaCol c (medianCol c acc) acc) df1

/-- The missing-value policy as the spec words it, for comparison with
`handle_missing_values`: rows missing a required value are dropped first,
and each optional column's missing values are imputed with that column's
median computed over the rows that survived the required-column drop (not
over the original row set, and not over a table already touched by other
imputations). -/
def specHandleMissing (df : RawTable) : RawTable :=
  let df1 := dropnaRequired df
  optionalIdxList.foldl (fun acc c => fillnaCol c (medianCol c df1) acc) df1

/-- Setting a cell in column `c'` does not change reads of column
`c ≠ c'`. -/
lemma getD_set_ne (r : List (Option ℚ)) (c c' : Nat) (a : Option ℚ)
    (h : c' ≠ c) : (r.set c' a).getD c none = r.getD c none := by
  simp [List.getD_eq_getElem?_getD, List.getElem?_set_ne h]

/-- Filling column `c'` leaves the non-missing values of any other column
unchanged. -/
lemma colNonNull_fillnaCol (c c' : Nat) (h : c' ≠ c) (v : ℚ)
    (df : RawTable) : colNonNull c (fillnaCol c' v df) = colNonNull c df := by
  unfold colNonNull fillnaCol
  rw [List.filterMap_map]
  congr 1
  funext r
  simp only [Function.comp_apply, List.getD_eq_getElem?_getD]
  by_cases hs : (r[c']?.getD none).isSome
  · rw [if_pos hs]
  · rw [if_neg hs]
    have := getD_set_ne r c c' (some v) h
    simpa [List.getD_eq_getElem?_getD] using this

/-- Filling column `c'` leaves the median of any other column unchanged. -/
lemma medianCol_fillnaCol (c c' : Nat) (h : c' ≠ c) (v : ℚ)
    (df : RawTable) : medianCol c (fillnaCol c' v df) = medianCol c df := by
  unfold medianCol
  rw [colNonNull_fillnaCol c c' h v df]

/-- A row of `fillnaCol c' v df` reads the same in column `c ≠ c'` as the
row of `df` it came from. -/
lemma fillnaCol_getD_of_mem (c c' : Nat) (h : c' ≠ c) (v : ℚ)
    (df : RawTable) (r : List (Option ℚ)) (hr : r ∈ fillnaCol c' v df) :
    ∃ s ∈ df, r.getD c none = s.getD c none := by
  obtain ⟨s, hs, rfl⟩ := List.mem_map.mp hr
  refine ⟨s, hs, ?_⟩
  simp only [List.getD_eq_getElem?_getD]
  by_cases h1 : (s[c']?.getD none).isSome
  · simp [h1]
  · rw [if_neg h1]
    have := getD_set_ne s c c' (some v) h
    simpa [List.getD_eq_getElem?_getD] using this

/-- Claim C5: the missing-value policy drops every row missing a required
value and only afterwards imputes each optional column with its median over
the surviving rows — `handle_missing_values` coincides with the spec's
description, and every surviving row has a value in all nine required
columns. -/
theorem C5_missing_value_policy (df : RawTable) :
    handle_missing_values df = specHandleMissing df ∧
    ∀ r ∈ handle_missing_values df, ∀ c < 9, (r.getD c none).isSome := by
  constructor
  · unfold handle_missing_values specHandleMissing optionalIdxList
    simp only [List.foldl_cons, List.foldl_nil]
    rw [medianCol_fillnaCol 10 9 (by decide) _ _,
      medianCol_fillnaCol 11 10 (by decide) _ _,
      medianCol_fillnaCol 11 9 (by decide) _ _]
  · intro r hr c hc
    unfold handle_missing_values optionalIdxList at hr
    simp only [List.foldl_cons, List.foldl_nil] at hr
    obtain ⟨s2, hs2, he2⟩ :=
      fillnaCol_getD_of_mem c 11 (by omega) _ _ r hr
    obtain ⟨s1, hs1, he1⟩ :=
      fillnaCol_getD_of_mem c 10 (by omega) _ _ s2 hs2
    obtain ⟨s0, hs0, he0⟩ :=
      fillnaCol_getD_of_mem c 9 (by omega) _ _ s1 hs1
    rw [he2, he1, he0]
    have := (List.mem_filter.mp hs0).2
    rw [List.all_eq_true] at this
    exact this c (List.mem_range.mpr hc)


/-! ## `ExoplanetClassifier.predict` (`train_model.py` lines 197-225) -/

/-- Model of `numpy.argmax`: the index of the first maximal element (0 for
an empty list).  sklearn's `RandomForestClassifier.predict` returns
`classes_[argmax(predict_proba(X))]`, and the forest was fit on the encoded
labels `0, 1, 2`, so its predicted code is exactly this argmax index. -/
def argmaxIdx (xs : List ℚ) : Nat :=
  (xs.foldl
    (fun acc x =>
      if x > acc.2.2 then (acc.1 + 1, acc.1, x)
      else (acc.1 + 1, acc.2.1, acc.2.2))
    (0, 0, xs.headD 0)).2.1

/-- Python's `max()` of a nonempty list (0 for an empty list, a case no
claim touches). -/
def listMax (xs : List ℚ) : ℚ := xs.foldl max (xs.headD 0)

/-- `features[self.feature_columns]`: select the named columns in order;
pandas raises a `KeyError` when one is absent, modelled as `none`. -/
def selectColumns (cols : List String) (features : List (String × ℚ)) :
    Option (List ℚ) :=
  cols.mapM (fun c => features.lookup c)

/-- The result dict returned by `ExoplanetClassifier.predict`
(`train_model.py` lines 221-225). -/
structure TrainPredictionResult where
  prediction : String
  confidence_scores : List (String × ℚ)
  max_confidence : ℚ
deriving DecidableEq

/-- `ExoplanetClassifier.predict` (`train_model.py` lines 197-225): select
the 12 feature columns, scale, take the per-class probabilities, decode the
forest's predicted code through `label_encoder.inverse_transform` (the
class at the argmax of the probabilities), report one confidence entry per
class in `classes_` order and `max(probabilities[0])` as the maximum
confidence.  No merging of `CONFIRMED` and `CANDIDATE` happens here. -/
def trainPredict (m : RFModel) (sc : Scaler) (enc : LabelEncoder)
    (features : List (String × ℚ)) : Option TrainPredictionResult :=
  match selectColumns featureColumnsList features with
  | none => none
  | some vals =>
    let scaled := sc.transform vals
    let probs := m.proba scaled
    let predicted_label := enc.classes.getD (argmaxIdx probs) ""
    let confidence_scores :=
      (List.range enc.classes.length).map fun i =>
        (enc.classes.getD i "", probs.getD i 0)
    some ⟨predicted_label, confidence_scores, listMax probs⟩

/-- Claim C10: on any input with all 12 feature columns present, the
training module's predict returns the raw disposition label attaining the
maximal per-class probability (never the merged two-way verdict), a
three-entry confidence mapping (one per persisted class), and the maximal
raw per-class probability as `max_confidence`. -/
theorem C10_raw_three_class_predict (p1 p2 p3 : ℚ) (sc : Scaler)
    (features : List (String × ℚ)) (vals : List ℚ)
    (hsel : selectColumns featureColumnsList features = some vals) :
    ∃ r : TrainPredictionResult,
      trainPredict (constModel [p1, p2, p3]) sc ⟨persistedClasses⟩ features
        = some r ∧
      r.confidence_scores =
        [("CANDIDATE", p1), ("CONFIRMED", p2), ("FALSE POSITIVE", p3)] ∧
      r.max_confidence = max (max p1 p2) p3 ∧
      r.prediction ∈ persistedClasses ∧
      r.prediction ≠ "CONFIRMED/CANDIDATE" ∧
      r.confidence_scores.lookup r.prediction
        = some (max (max p1 p2) p3) := by
  have hmax : listMax [p1, p2, p3] = max (max p1 p2) p3 := by
    simp [listMax, max_self]
  simp only [trainPredict, hsel, constModel]
  by_cases h12 : p1 < p2
  · by_cases h23 : p2 < p3
    · have hidx : argmaxIdx [p1, p2, p3] = 2 := by
        simp [argmaxIdx, lt_self_iff_false, h12, h23]
      have hm : max (max p1 p2) p3 = p3 := by
        rw [max_eq_right h12.le, max_eq_right h23.le]
      refine ⟨_, rfl, ?_, ?_, ?_, ?_, ?_⟩ <;>
        simp [hidx, hmax, hm, persistedClasses] <;>
        norm_num [List.range_succ, persistedClasses, List.lookup] <;> rfl
    · have hidx : argmaxIdx [p1, p2, p3] = 1 := by
        simp [argmaxIdx, lt_self_iff_false, h12, h23]
      have hm : max (max p1 p2) p3 = p2 := by
        rw [max_eq_right h12.le, max_eq_left (not_lt.mp h23)]
      refine ⟨_, rfl, ?_, ?_, ?_, ?_, ?_⟩ <;>
        simp [hidx, hmax, hm, persistedClasses] <;>
        norm_num [List.range_succ, persistedClasses, List.lookup] <;> rfl
  · by_cases h13 : p1 < p3
    · have hidx : argmaxIdx [p1, p2, p3] = 2 := by
        simp [argmaxIdx, lt_self_iff_false, h12, h13]
      have hm : max (max p1 p2) p3 = p3 := by
        rw [max_eq_left (not_lt.mp h12), max_eq_right h13.le]
      refine ⟨_, rfl, ?_, ?_, ?_, ?_, ?_⟩ <;>
        simp [hidx, hmax, hm, persistedClasses] <;>
        norm_num [List.range_succ, persistedClasses, List.lookup] <;> rfl
    · have hidx : argmaxIdx [p1, p2, p3] = 0 := by
        simp [argmaxIdx, lt_self_iff_false, h12, h13]
      have hm : max (max p1 p2) p3 = p1 := by
        rw [max_eq_left (not_lt.mp h12), max_eq_left (not_lt.mp h13)]
      refine ⟨_, rfl, ?_, ?_, ?_, ?_, ?_⟩ <;>
        simp [hidx, hmax, hm, persistedClasses] <;>
        norm_num [List.range_succ, persistedClasses, List.lookup] <;> rfl

/-- Witness for C10 at the concrete full input and the distribution
`[1/5, 3/10, 1/2]`. -/
theorem C10_raw_three_class_predict_witness :
    ∃ r : TrainPredictionResult,
      trainPredict (constModel [1/5, 3/10, 1/2]) idScaler ⟨persistedClasses⟩
          fullInput = some r ∧
      r.confidence_scores =
        [("CANDIDATE", 1/5), ("CONFIRMED", 3/10), ("FALSE POSITIVE", 1/2)] ∧
      r.max_confidence = max (max (1/5 : ℚ) (3/10)) (1/2) ∧
      r.prediction ∈ persistedClasses ∧
      r.prediction ≠ "CONFIRMED/CANDIDATE" ∧
      r.confidence_scores.lookup r.prediction
        = some (max (max (1/5 : ℚ) (3/10)) (1/2)) :=
  C10_raw_three_class_predict (1/5) (3/10) (1/2) idScaler fullInput
    [10, 3, 100, 2, 500, 1, 20, 5700, 1, 1, 1, 4] (by rfl)


end KeplerAI
